import Mathlib

/-!
Verification of the AVP workshop demo corpus against its design
specification.

The Python sources embedded here:
- `src/demos/04-hardware-security/avp_hardware.py`
    (`NexusClawSimulator`, `NexusClaw`)
- `src/demos/03-crewai-avp/avp_crewai.py` (`AVPCredentialManager`)
- `src/demos/02-langchain-avp/avp_langchain.py` (`AVPCredentialProvider`)

The `avp` package itself (`AVPClient`, backends) is imported by the demos
but is not part of the source corpus; its operations are modelled from the
spec (sections 4.2, 4.3, 7) and are marked `Modelled from the spec:`.

Python dictionaries are embedded as association lists with insertion
order and unique keys (`dictGet` / `dictSet` / `dictDel`); byte strings
are lists of naturals below 256; `str.encode()` / `bytes.decode()` are
embedded as an explicit UTF-8 codec (`strEncode` / `strDecode`).
-/

/-- Lookup in a Python dict embedded as an association list. -/
def dictGet {α : Type} : List (String × α) → String → Option α
  | [], _ => none
  | (k, v) :: rest, key => if k = key then some v else dictGet rest key

/-- Python dict assignment: replace in place if the key exists (keeping
its position, i.e. insertion order), otherwise append at the end. -/
def dictSet {α : Type} : List (String × α) → String → α → List (String × α)
  | [], key, val => [(key, val)]
  | (k, v) :: rest, key, val =>
    if k = key then (k, val) :: rest else (k, v) :: dictSet rest key val

/-- Python `del d[key]`: drop the entry with the given key. -/
def dictDel {α : Type} : List (String × α) → String → List (String × α)
  | [], _ => []
  | (k, v) :: rest, key => if k = key then rest else (k, v) :: dictDel rest key

theorem dictGet_set_self {α : Type} (l : List (String × α)) (k : String) (v : α) :
    dictGet (dictSet l k v) k = some v := by
  induction l with
  | nil => simp [dictGet, dictSet]
  | cons hd tl ih =>
    obtain ⟨k0, v0⟩ := hd
    by_cases h : k0 = k
    · simp [dictGet, dictSet, h]
    · simp [dictGet, dictSet, h, ih]

theorem dictGet_set_ne {α : Type} (l : List (String × α)) (k k2 : String) (v : α)
    (h : k ≠ k2) : dictGet (dictSet l k v) k2 = dictGet l k2 := by
  induction l with
  | nil => simp [dictGet, dictSet, h]
  | cons hd tl ih =>
    obtain ⟨k0, v0⟩ := hd
    by_cases h0 : k0 = k
    · subst h0
      simp [dictGet, dictSet, h]
    · simp [dictGet, dictSet, h0, ih]

theorem dictGet_mem {α : Type} {l : List (String × α)} {k : String} {v : α}
    (h : dictGet l k = some v) : (k, v) ∈ l := by
  induction l with
  | nil => simp [dictGet] at h
  | cons hd tl ih =>
    obtain ⟨k0, v0⟩ := hd
    by_cases h0 : k0 = k
    · subst h0
      simp [dictGet] at h
      simp [h]
    · simp [dictGet, h0] at h
      exact List.mem_cons_of_mem _ (ih h)

/-- UTF-8 encoding of a single code point (Python `str.encode("utf-8")`,
one character). -/
def charUtf8 (n : Nat) : List Nat :=
  if n < 0x80 then [n]
  else if n < 0x800 then [0xC0 + n / 64, 0x80 + n % 64]
  else if n < 0x10000 then [0xE0 + n / 4096, 0x80 + n / 64 % 64, 0x80 + n % 64]
  else [0xF0 + n / 262144, 0x80 + n / 4096 % 64, 0x80 + n / 64 % 64, 0x80 + n % 64]

/-- Python `str.encode("utf-8")`: byte list of the UTF-8 encoding. -/
def strEncode (s : String) : List Nat :=
  (s.data.map (fun c => charUtf8 c.toNat)).foldr (fun a b => a ++ b) []

/-- A UTF-8 continuation byte. -/
def isCont (b : Nat) : Bool := 0x80 ≤ b && b < 0xC0

/-- Strict UTF-8 decoding of a byte list into code points (Python
`bytes.decode("utf-8")`, which raises `UnicodeDecodeError` on invalid
input — here `none`). Rejects continuation-byte leads, overlong forms,
surrogates and out-of-range code points. -/
def utf8DecodeList : List Nat → Option (List Char)
  | [] => some []
  | b :: rest =>
    if b < 0x80 then
      (utf8DecodeList rest).map (fun cs => Char.ofNat b :: cs)
    else if b < 0xC2 then none
    else if b < 0xE0 then
      match rest with
      | c1 :: rest1 =>
        if isCont c1 then
          (utf8DecodeList rest1).map
            (fun cs => Char.ofNat ((b - 0xC0) * 64 + (c1 - 0x80)) :: cs)
        else none
      | [] => none
    else if b < 0xF0 then
      match rest with
      | c1 :: c2 :: rest2 =>
        if isCont c1 && isCont c2 then
          let n := (b - 0xE0) * 4096 + (c1 - 0x80) * 64 + (c2 - 0x80)
          if n < 0x800 || (0xD800 ≤ n && n < 0xE000) then none
          else (utf8DecodeList rest2).map (fun cs => Char.ofNat n :: cs)
        else none
      | _ => none
    else if b < 0xF5 then
      match rest with
      | c1 :: c2 :: c3 :: rest3 =>
        if isCont c1 && isCont c2 && isCont c3 then
          let n := (b - 0xF0) * 262144 + (c1 - 0x80) * 4096 +
            (c2 - 0x80) * 64 + (c3 - 0x80)
          if n < 0x10000 || 0x110000 ≤ n then none
          else (utf8DecodeList rest3).map (fun cs => Char.ofNat n :: cs)
        else none
      | _ => none
    else none

/-- Python `bytes.decode("utf-8")` as a `String`-producing partial map. -/
def strDecode (b : List Nat) : Option String :=
  (utf8DecodeList b).map (fun cs => String.mk cs)

example : strEncode "ab" = [97, 98] := by decide
example : strDecode [97, 98] = some "ab" := by decide

/-!
Embedding of `src/demos/04-hardware-security/avp_hardware.py`.

Python exceptions raised by this module (`ValueError`, `KeyError`,
`PermissionError`) become the `PyError` variants below; a method that can
raise returns `Except PyError`; an `.error` result means the raise
happened before any attribute mutation, so the caller's state is the
unchanged input state.  The `print` / `time.sleep` calls (including the
touch-confirmation wait) have no effect on the object state and are not
embedded.
-/

inductive PyError where
  | valueError (msg : String)
  | keyError (slot : String)
  | permissionError (msg : String)
deriving DecidableEq

instance {ε α : Type} [DecidableEq ε] [DecidableEq α] : DecidableEq (Except ε α) :=
  fun a b =>
    match a, b with
    | .ok x, .ok y => decidable_of_iff (x = y) (by simp)
    | .error x, .error y => decidable_of_iff (x = y) (by simp)
    | .ok _, .error _ => isFalse (by simp)
    | .error _, .ok _ => isFalse (by simp)

/-- State of `NexusClawSimulator` (its `__init__` attributes).  Slot
values are byte strings (`bytes`), i.e. lists of naturals. -/
structure NexusClawSimulator where
  connected : Bool
  pin_set : Bool
  pin : Option String
  slots : List (String × List Nat)
  max_slots : Nat
  failed_attempts : Nat
  max_attempts : Nat
deriving DecidableEq

/-- `NexusClawSimulator.__init__`. -/
def NexusClawSimulator.init : NexusClawSimulator :=
  { connected := false, pin_set := false, pin := none, slots := [],
    max_slots := 32, failed_attempts := 0, max_attempts := 3 }

/-- `NexusClawSimulator.connect`. -/
def NexusClawSimulator.connect (s : NexusClawSimulator) : NexusClawSimulator × Bool :=
  ({ s with connected := true }, true)

/-- `NexusClawSimulator.setup_pin`: rejects a PIN shorter than 4
characters, otherwise records the PIN and marks it set. -/
def NexusClawSimulator.setup_pin (s : NexusClawSimulator) (pin : String) :
    Except PyError (NexusClawSimulator × Bool) :=
  if pin.length < 4 then .error (.valueError "PIN must be at least 4 digits")
  else .ok ({ s with pin := some pin, pin_set := true }, true)

/-- `NexusClawSimulator.verify_pin`: on match reset `failed_attempts` to
0; on mismatch increment it and, once it reaches `max_attempts`, clear
all slots (`self._slots = ` empty dict). -/
def NexusClawSimulator.verify_pin (s : NexusClawSimulator) (pin : String) :
    NexusClawSimulator × Bool :=
  if s.pin = some pin then ({ s with failed_attempts := 0 }, true)
  else if s.max_attempts ≤ s.failed_attempts + 1 then
    ({ s with failed_attempts := s.failed_attempts + 1, slots := [] }, false)
  else ({ s with failed_attempts := s.failed_attempts + 1 }, false)

/-- `NexusClawSimulator.store`: raises when no slot is free, otherwise
writes the slot (Python dict assignment). -/
def NexusClawSimulator.store (s : NexusClawSimulator) (slot_name : String)
    (value : List Nat) : Except PyError (NexusClawSimulator × Bool) :=
  if s.max_slots ≤ s.slots.length then .error (.valueError "No free slots available")
  else .ok ({ s with slots := dictSet s.slots slot_name value }, true)

/-- `NexusClawSimulator.retrieve`: raises `KeyError` when the slot is
absent, otherwise returns the stored bytes unchanged. -/
def NexusClawSimulator.retrieve (s : NexusClawSimulator) (slot_name : String) :
    Except PyError (List Nat) :=
  match dictGet s.slots slot_name with
  | none => .error (.keyError slot_name)
  | some v => .ok v

/-- `NexusClawSimulator.delete`: drop the slot when present and report
whether something was removed. -/
def NexusClawSimulator.delete (s : NexusClawSimulator) (slot_name : String) :
    NexusClawSimulator × Bool :=
  if (dictGet s.slots slot_name).isSome then
    ({ s with slots := dictDel s.slots slot_name }, true)
  else (s, false)

/-- `NexusClawSimulator.list_slots`. -/
def NexusClawSimulator.list_slots (s : NexusClawSimulator) : List String :=
  s.slots.map Prod.fst

/-- `NexusClawSimulator.disconnect`. -/
def NexusClawSimulator.disconnect (s : NexusClawSimulator) : NexusClawSimulator :=
  { s with connected := false }

/-- State of the high-level `NexusClaw` wrapper in simulation mode: the
wrapped simulator plus the `_authenticated` flag. -/
structure NexusClaw where
  device : NexusClawSimulator
  authenticated : Bool
deriving DecidableEq

/-- `NexusClaw.__init__` in simulation mode. -/
def NexusClaw.init : NexusClaw :=
  { device := NexusClawSimulator.init, authenticated := false }

/-- `NexusClaw.setup`: delegates to `setup_pin`. -/
def NexusClaw.setup (c : NexusClaw) (pin : String) :
    Except PyError (NexusClaw × Bool) :=
  (c.device.setup_pin pin).map (fun r => ({ c with device := r.1 }, r.2))

/-- `NexusClaw.authenticate`: delegates to `verify_pin` and, on success,
sets the `_authenticated` flag. -/
def NexusClaw.authenticate (c : NexusClaw) (pin : String) : NexusClaw × Bool :=
  let r := c.device.verify_pin pin
  if r.2 then ({ device := r.1, authenticated := true }, true)
  else ({ c with device := r.1 }, false)

/-- The `PermissionError` message used by `NexusClaw` operations. -/
def permMsg : String := "Must authenticate with PIN first"

/-- `NexusClaw.store`: requires prior authentication, then stores the
UTF-8 encoding of the value. -/
def NexusClaw.store (c : NexusClaw) (name value : String) :
    Except PyError (NexusClaw × Bool) :=
  if c.authenticated then
    (c.device.store name (strEncode value)).map
      (fun r => ({ c with device := r.1 }, r.2))
  else .error (.permissionError permMsg)

/-- `NexusClaw.retrieve`: requires prior authentication, then decodes the
stored bytes (`bytes.decode`, whose failure is a `UnicodeDecodeError`, a
`ValueError`). -/
def NexusClaw.retrieve (c : NexusClaw) (name : String) : Except PyError String :=
  if c.authenticated then
    match c.device.retrieve name with
    | .ok v =>
      match strDecode v with
      | some s => .ok s
      | none => .error (.valueError "UnicodeDecodeError")
    | .error e => .error e
  else .error (.permissionError permMsg)

/-- `NexusClaw.delete`: requires prior authentication. -/
def NexusClaw.delete (c : NexusClaw) (name : String) :
    Except PyError (NexusClaw × Bool) :=
  if c.authenticated then
    let r := c.device.delete name
    .ok ({ c with device := r.1 }, r.2)
  else .error (.permissionError permMsg)

/-- `NexusClaw.disconnect`: disconnects the device and clears the
authentication flag. -/
def NexusClaw.disconnect (c : NexusClaw) : NexusClaw :=
  { device := c.device.disconnect, authenticated := false }

/-- `True` exactly on results arising from the `PermissionError` raise
guarding `NexusClaw` operations. -/
def permDenied {α : Type} : Except PyError α → Bool
  | .error (.permissionError _) => true
  | _ => false

/-!
Model of the `avp` package consumed by the demos.  The package itself is
not part of the source corpus — the demos only import `AVPClient` and the
backends — so its behavior is modelled from the spec (sections 3, 4.2,
4.3 and 7) and every definition below carries a `Modelled from the spec:`
comment.  Wall-clock time is a natural `now`; a vault is a
workspace-indexed dict of name-indexed secret dicts.
-/

/-- Modelled from the spec: the error taxonomy of section 7 for the
missing `avp` package (typed failures, never unstructured strings). -/
inductive AVPError where
  | connectionError
  | authenticationError
  | sessionExpiredError
  | notFoundError
  | capacityError
  | integrityError
  | deviceWipedError
  | unsupportedFormatError
deriving DecidableEq

/-- Modelled from the spec: default session TTL of 3600 seconds
(section 4.2). -/
def sessionTTL : Nat := 3600

/-- Modelled from the spec: a stored Secret keeps an opaque byte value
and a version (section 3); the claims below do not touch labels or
timestamps, which are omitted. -/
structure AVPSecret where
  value : List Nat
  version : Nat
deriving DecidableEq

/-- Modelled from the spec: a Session is bound to exactly one workspace
and carries its expiry instant (section 3). -/
structure AVPSession where
  workspace : String
  expires_at : Nat
deriving DecidableEq

/-- Modelled from the spec: the state of the missing `AVPClient` — the
workspace-partitioned secret store, the live sessions indexed by opaque
session id, a counter for fresh session ids, and the current time. -/
structure AVPClient where
  data : List (String × List (String × AVPSecret))
  sessions : List (String × AVPSession)
  next_session : Nat
  now : Nat
deriving DecidableEq

/-- Modelled from the spec: `AVPClient.authenticate` (section 4.2) issues
a fresh Session bound to exactly one workspace, expiring `sessionTTL`
seconds from now, and returns its opaque id. -/
def AVPClient.authenticate (c : AVPClient) (workspace : String) :
    AVPClient × String :=
  let sid := "session-" ++ toString c.next_session
  ({ c with
      sessions := dictSet c.sessions sid
        { workspace := workspace, expires_at := c.now + sessionTTL },
      next_session := c.next_session + 1 },
    sid)

/-- Modelled from the spec: every engine operation checks that the
session exists and that `now < expires_at`, failing with
`SessionExpiredError` otherwise (section 4.2), and is scoped to the
session workspace (section 4.3). -/
def AVPClient.checkSession (c : AVPClient) (sid : String) :
    Except AVPError String :=
  match dictGet c.sessions sid with
  | none => .error .sessionExpiredError
  | some s =>
    if c.now < s.expires_at then .ok s.workspace
    else .error .sessionExpiredError

/-- Modelled from the spec: `AVPClient.retrieve` (section 4.3) returns
the secret in the session workspace and fails with `NotFoundError` if it
is absent there, even if present in another workspace. -/
def AVPClient.retrieve (c : AVPClient) (sid name : String) :
    Except AVPError AVPSecret :=
  match c.checkSession sid with
  | .error e => .error e
  | .ok ws =>
    match dictGet c.data ws with
    | none => .error .notFoundError
    | some secrets =>
      match dictGet secrets name with
      | none => .error .notFoundError
      | some secret => .ok secret

/-- Modelled from the spec: `AVPClient.store` (section 4.3) is a
destructive overwrite that resets the version to 1, scoped to the
session workspace. -/
def AVPClient.store (c : AVPClient) (sid name : String) (value : List Nat) :
    Except AVPError AVPClient :=
  match c.checkSession sid with
  | .error e => .error e
  | .ok ws =>
    let secrets := (dictGet c.data ws).getD []
    .ok { c with
      data := dictSet c.data ws
        (dictSet secrets name { value := value, version := 1 }) }

/-- Modelled from the spec: `AVPClient.rotate` (section 4.3) atomically
increments the version and overwrites the value of an existing secret. -/
def AVPClient.rotate (c : AVPClient) (sid name : String) (value : List Nat) :
    Except AVPError AVPClient :=
  match c.checkSession sid with
  | .error e => .error e
  | .ok ws =>
    let secrets := (dictGet c.data ws).getD []
    match dictGet secrets name with
    | none => .error .notFoundError
    | some s =>
      .ok { c with
        data := dictSet c.data ws
          (dictSet secrets name { value := value, version := s.version + 1 }) }

/-- Modelled from the spec: `AVPClient.list_secrets` (section 4.3)
returns the secret names of the session workspace in insertion order,
never the values. -/
def AVPClient.list_secrets (c : AVPClient) (sid : String) :
    Except AVPError (List String) :=
  match c.checkSession sid with
  | .error e => .error e
  | .ok ws => .ok (((dictGet c.data ws).getD []).map Prod.fst)

/-!
Embedding of `src/demos/03-crewai-avp/avp_crewai.py`
(`AVPCredentialManager`).  The wall-clock `timestamp` field of an audit
entry is not embedded (the claims concern count and order only); the
Python leading underscores of `_get_session` / `_log_access` are
dropped.  Each method returns the updated manager state together with
the Python return value or the propagated exception: attribute mutations
performed before a raise (here, by `_get_session`) survive the raise, so
the state is returned even on the error path.
-/

/-- One entry of `AVPCredentialManager._audit_log` (without the
wall-clock timestamp). -/
structure AuditEntry where
  workspace : String
  action : String
  credential : Option String
deriving DecidableEq

/-- State of `AVPCredentialManager`: the client, the
workspace-to-session-id dict, and the audit log. -/
structure AVPCredentialManager where
  client : AVPClient
  sessions : List (String × String)
  audit_log : List AuditEntry
deriving DecidableEq

/-- An exception escaping an `AVPCredentialManager` method: an `avp`
error or a `UnicodeDecodeError` from `bytes.decode`. -/
inductive ManagerError where
  | avp (e : AVPError)
  | decodeError
deriving DecidableEq

/-- `AVPCredentialManager._log_access`: append one audit entry. -/
def AVPCredentialManager.log_access (m : AVPCredentialManager)
    (workspace action : String) (credential : Option String) :
    AVPCredentialManager :=
  { m with audit_log := m.audit_log ++
      [{ workspace := workspace, action := action, credential := credential }] }

/-- `AVPCredentialManager._get_session`: reuse the cached session for the
workspace, or authenticate, cache the new session id and log
`session_created`. -/
def AVPCredentialManager.get_session (m : AVPCredentialManager)
    (workspace : String) : AVPCredentialManager × String :=
  match dictGet m.sessions workspace with
  | some sid => (m, sid)
  | none =>
    let r := m.client.authenticate workspace
    let m1 := { m with client := r.1, sessions := dictSet m.sessions workspace r.2 }
    (m1.log_access workspace "session_created" none, r.2)

/-- `AVPCredentialManager.get`: retrieve, then log, then decode — a
backend failure escapes before anything is logged. -/
def AVPCredentialManager.get (m : AVPCredentialManager)
    (workspace name : String) :
    AVPCredentialManager × Except ManagerError String :=
  let r := m.get_session workspace
  match r.1.client.retrieve r.2 name with
  | .error e => (r.1, .error (.avp e))
  | .ok secret =>
    let m2 := r.1.log_access workspace "retrieve" (some name)
    match strDecode secret.value with
    | some s => (m2, .ok s)
    | none => (m2, .error .decodeError)

/-- `AVPCredentialManager.set`: store, then log. -/
def AVPCredentialManager.set (m : AVPCredentialManager)
    (workspace name value : String) :
    AVPCredentialManager × Except ManagerError Unit :=
  let r := m.get_session workspace
  match r.1.client.store r.2 name (strEncode value) with
  | .error e => (r.1, .error (.avp e))
  | .ok c2 =>
    (({ r.1 with client := c2 } : AVPCredentialManager).log_access
        workspace "store" (some name),
      .ok ())

/-- `AVPCredentialManager.rotate`: rotate, then log. -/
def AVPCredentialManager.rotate (m : AVPCredentialManager)
    (workspace name new_value : String) :
    AVPCredentialManager × Except ManagerError Unit :=
  let r := m.get_session workspace
  match r.1.client.rotate r.2 name (strEncode new_value) with
  | .error e => (r.1, .error (.avp e))
  | .ok c2 =>
    (({ r.1 with client := c2 } : AVPCredentialManager).log_access
        workspace "rotate" (some name),
      .ok ())

/-- `AVPCredentialManager.list_credentials`: list the workspace secret
names; note that the source logs nothing here. -/
def AVPCredentialManager.list_credentials (m : AVPCredentialManager)
    (workspace : String) :
    AVPCredentialManager × Except ManagerError (List String) :=
  let r := m.get_session workspace
  match r.1.client.list_secrets r.2 with
  | .error e => (r.1, .error (.avp e))
  | .ok names => (r.1, .ok names)

/-- `AVPCredentialManager.get_audit_log` (returns a copy of the list). -/
def AVPCredentialManager.get_audit_log (m : AVPCredentialManager) :
    List AuditEntry :=
  m.audit_log

/-!
Embedding of `src/demos/02-langchain-avp/avp_langchain.py`
(`AVPCredentialProvider`).
-/

/-- The exception surfaced by `AVPCredentialProvider.get`: the source
catches every exception and re-raises `KeyError` naming the credential. -/
inductive ProviderError where
  | keyError (name : String)
deriving DecidableEq

/-- State of `AVPCredentialProvider` after `_connect`: the client, the
configured workspace and the authenticated session id. -/
structure AVPCredentialProvider where
  client : AVPClient
  workspace : String
  session_id : String
deriving DecidableEq

/-- `AVPCredentialProvider.get`: `try retrieve-and-decode, except
Exception: raise KeyError` — every failure, whatever its kind, becomes
the single `KeyError` shape. -/
def AVPCredentialProvider.get (p : AVPCredentialProvider) (name : String) :
    Except ProviderError String :=
  match p.client.retrieve p.session_id name with
  | .ok secret =>
    match strDecode secret.value with
    | some s => .ok s
    | none => .error (.keyError name)
  | .error _ => .error (.keyError name)

/-!
Helper lemmas on the hardware PIN state machine.
-/

theorem verify_pin_success (s : NexusClawSimulator) (q : String)
    (hpin : s.pin = some q) :
    s.verify_pin q = ({ s with failed_attempts := 0 }, true) := by
  unfold NexusClawSimulator.verify_pin
  rw [if_pos hpin]

theorem verify_pin_fail (s : NexusClawSimulator) (q p : String)
    (hpin : s.pin = some q) (hne : p ≠ q) :
    (s.verify_pin p).2 = false ∧
    (s.verify_pin p).1.pin = s.pin ∧
    (s.verify_pin p).1.pin_set = s.pin_set ∧
    (s.verify_pin p).1.max_attempts = s.max_attempts ∧
    (s.verify_pin p).1.failed_attempts = s.failed_attempts + 1 ∧
    (s.max_attempts ≤ s.failed_attempts + 1 → (s.verify_pin p).1.slots = []) ∧
    (¬ s.max_attempts ≤ s.failed_attempts + 1 → (s.verify_pin p).1.slots = s.slots) := by
  have hcond : s.pin ≠ some p := by
    rw [hpin]
    exact fun h => hne (Option.some.inj h).symm
  unfold NexusClawSimulator.verify_pin
  rw [if_neg hcond]
  by_cases hw : s.max_attempts ≤ s.failed_attempts + 1
  · rw [if_pos hw]
    exact ⟨rfl, rfl, rfl, rfl, rfl, fun _ => rfl, fun h => absurd hw h⟩
  · rw [if_neg hw]
    exact ⟨rfl, rfl, rfl, rfl, rfl, fun h => absurd h hw, fun _ => rfl⟩

theorem verify_pin_three_fails (s : NexusClawSimulator) (q p1 p2 p3 : String)
    (hpin : s.pin = some q) (hmax : s.max_attempts = 3)
    (h1 : p1 ≠ q) (h2 : p2 ≠ q) (h3 : p3 ≠ q) :
    (((s.verify_pin p1).1.verify_pin p2).1.verify_pin p3).1.slots = [] ∧
    (((s.verify_pin p1).1.verify_pin p2).1.verify_pin p3).1.pin = some q ∧
    (((s.verify_pin p1).1.verify_pin p2).1.verify_pin p3).1.pin_set = s.pin_set ∧
    (((s.verify_pin p1).1.verify_pin p2).1.verify_pin p3).2 = false := by
  obtain ⟨-, e1pin, e1set, e1max, e1fa, -, -⟩ := verify_pin_fail s q p1 hpin h1
  have hpin1 : (s.verify_pin p1).1.pin = some q := by rw [e1pin, hpin]
  obtain ⟨-, e2pin, e2set, e2max, e2fa, -, -⟩ :=
    verify_pin_fail (s.verify_pin p1).1 q p2 hpin1 h2
  have hpin2 : ((s.verify_pin p1).1.verify_pin p2).1.pin = some q := by
    rw [e2pin, hpin1]
  obtain ⟨e3snd, e3pin, e3set, e3max, e3fa, e3wipe, -⟩ :=
    verify_pin_fail ((s.verify_pin p1).1.verify_pin p2).1 q p3 hpin2 h3
  have hw : ((s.verify_pin p1).1.verify_pin p2).1.max_attempts ≤
      ((s.verify_pin p1).1.verify_pin p2).1.failed_attempts + 1 := by
    rw [e2max, e1max, hmax, e2fa, e1fa]
    omega
  refine ⟨e3wipe hw, by rw [e3pin, hpin2], by rw [e3set, e2set, e1set], e3snd⟩

theorem authenticate_device (c : NexusClaw) (p : String) :
    (c.authenticate p).1.device = (c.device.verify_pin p).1 := by
  unfold NexusClaw.authenticate
  by_cases h : (c.device.verify_pin p).2 <;> simp [h]

theorem authenticate_snd (c : NexusClaw) (p : String) :
    (c.authenticate p).2 = (c.device.verify_pin p).2 := by
  unfold NexusClaw.authenticate
  by_cases h : (c.device.verify_pin p).2 <;> simp [h]

/-- A device fresh from `setup_pin("1234")`. -/
def simConfigured : NexusClawSimulator :=
  { NexusClawSimulator.init with pin := some "1234", pin_set := true }

/-- The configured device with one stored slot. -/
def simWithSlot : NexusClawSimulator :=
  { simConfigured with slots := [("api_key", [115, 107, 45, 49])] }

/-- C5: on a device with a configured PIN (and the stock
`max_attempts = 3`), three consecutive failed `verify_pin` calls leave
the slot mapping empty. -/
theorem three_failed_attempts_wipe_slots (s : NexusClawSimulator)
    (q p1 p2 p3 : String)
    (hpin : s.pin = some q) (hmax : s.max_attempts = 3)
    (h1 : p1 ≠ q) (h2 : p2 ≠ q) (h3 : p3 ≠ q) :
    (((s.verify_pin p1).1.verify_pin p2).1.verify_pin p3).1.slots = [] :=
  (verify_pin_three_fails s q p1 p2 p3 hpin hmax h1 h2 h3).1

theorem three_failed_attempts_wipe_slots_witness :
    simWithSlot.pin = some "1234" ∧ simWithSlot.max_attempts = 3 ∧
    simWithSlot.slots ≠ [] ∧
    (((simWithSlot.verify_pin "0000").1.verify_pin "1111").1.verify_pin "2222").1.slots = [] :=
  ⟨by decide, by decide, by decide,
    three_failed_attempts_wipe_slots simWithSlot "1234" "0000" "1111" "2222"
      (by decide) (by decide) (by decide) (by decide) (by decide)⟩

/-- The high-level wrapper around the configured device, before any
authentication. -/
def clawConfigured : NexusClaw :=
  { device := simConfigured, authenticated := false }

/-- The wrapper after three failed `authenticate("0000")` calls on the
device configured with PIN `"1234"`. -/
def clawAfterLockout : NexusClaw :=
  (((clawConfigured.authenticate "0000").1.authenticate "0000").1.authenticate "0000").1

/-- C1 counterexample: after `setup("1234")` and three failed
authentications the slots are wiped, but the wipe is not terminal — the
device is not reset to unconfigured state (`pin_set` is still `true` and
the PIN is still recorded), the lockout is reported as the same plain
`false` as the first normal failure (there is no `DeviceWipedError` in
the code), and a fourth `authenticate` with the previously correct PIN
succeeds without `setup` being re-run. -/
theorem wipe_not_terminal_counterexample :
    NexusClawSimulator.init.setup_pin "1234" = .ok (simConfigured, true)
    ∧ clawAfterLockout.device.slots = []
    ∧ (clawConfigured.authenticate "0000").2 = false
    ∧ (((clawConfigured.authenticate "0000").1.authenticate "0000").1.authenticate "0000").2 = false
    ∧ clawAfterLockout.device.pin_set = true
    ∧ clawAfterLockout.device.pin = some "1234"
    ∧ (clawAfterLockout.authenticate "1234").2 = true := by
  decide

/-- C1 (amended): reaching `max_attempts` wipes all slots, but the wipe
is not terminal and not surfaced distinctly: the device keeps its PIN
configuration (`pin_set` stays `true`), the third failure returns the
same plain `false` as any other failure, and a subsequent `authenticate`
with the previously correct PIN succeeds without `setup` being
re-run. -/
theorem wipe_clears_slots_but_not_terminal (c : NexusClaw) (q p1 p2 p3 : String)
    (hpin : c.device.pin = some q) (hset : c.device.pin_set = true)
    (hmax : c.device.max_attempts = 3)
    (h1 : p1 ≠ q) (h2 : p2 ≠ q) (h3 : p3 ≠ q) :
    (((c.authenticate p1).1.authenticate p2).1.authenticate p3).1.device.slots = []
    ∧ (((c.authenticate p1).1.authenticate p2).1.authenticate p3).1.device.pin_set = true
    ∧ (((c.authenticate p1).1.authenticate p2).1.authenticate p3).2 = false
    ∧ ((((c.authenticate p1).1.authenticate p2).1.authenticate p3).1.authenticate q).2 = true := by
  have hd1 := authenticate_device c p1
  have hd2 := authenticate_device (c.authenticate p1).1 p2
  have hd3 := authenticate_device ((c.authenticate p1).1.authenticate p2).1 p3
  have hchain : (((c.authenticate p1).1.authenticate p2).1.authenticate p3).1.device =
      (((c.device.verify_pin p1).1.verify_pin p2).1.verify_pin p3).1 := by
    rw [hd3, hd2, hd1]
  obtain ⟨w1, w2, w3, w4⟩ :=
    verify_pin_three_fails c.device q p1 p2 p3 hpin hmax h1 h2 h3
  refine ⟨by rw [hchain]; exact w1, by rw [hchain, w3, hset], ?_, ?_⟩
  · rw [authenticate_snd, hd2, hd1]
    exact w4
  · rw [authenticate_snd, hchain,
      verify_pin_success (((c.device.verify_pin p1).1.verify_pin p2).1.verify_pin p3).1 q w2]

theorem wipe_clears_slots_but_not_terminal_witness :
    clawConfigured.device.pin = some "1234"
    ∧ (((clawConfigured.authenticate "0000").1.authenticate "1111").1.authenticate "2222").1.device.slots = []
    ∧ (((clawConfigured.authenticate "0000").1.authenticate "1111").1.authenticate "2222").1.device.pin_set = true
    ∧ ((((clawConfigured.authenticate "0000").1.authenticate "1111").1.authenticate "2222").1.authenticate "1234").2 = true := by
  have h := wipe_clears_slots_but_not_terminal clawConfigured "1234" "0000" "1111" "2222"
    (by decide) (by decide) (by decide) (by decide) (by decide) (by decide)
  exact ⟨by decide, h.1, h.2.1, h.2.2.2⟩

/-- Run a sequence of `verify_pin` calls, keeping the device state. -/
def runPins : NexusClawSimulator → List String → NexusClawSimulator
  | s, [] => s
  | s, p :: ps => runPins (s.verify_pin p).1 ps

/-- Specification-side predicate: walking the attempt sequence with the
device PIN `q` and a simulated consecutive-failure counter starting at
`fa`, the counter never reaches the wipe threshold 3 (a correct attempt
resets it to 0, a wrong one increments it). -/
def okSeq (q : String) : Nat → List String → Bool
  | _, [] => true
  | fa, p :: ps =>
    if p = q then okSeq q 0 ps
    else decide (fa + 1 < 3) && okSeq q (fa + 1) ps

theorem runPins_no_wipe (pins : List String) :
    ∀ (s : NexusClawSimulator) (q : String),
      s.pin = some q → s.max_attempts = 3 →
      okSeq q s.failed_attempts pins = true →
      (runPins s pins).slots = s.slots := by
  induction pins with
  | nil => intro s q _ _ _; rfl
  | cons p ps ih =>
    intro s q hpin hmax hseq
    by_cases hpq : p = q
    · subst hpq
      have hv := verify_pin_success s p hpin
      have hv1 : (s.verify_pin p).1 = { s with failed_attempts := 0 } := by rw [hv]
      have hseq0 : okSeq p 0 ps = true := by
        unfold okSeq at hseq
        rw [if_pos rfl] at hseq
        exact hseq
      show (runPins (s.verify_pin p).1 ps).slots = s.slots
      rw [hv1]
      exact ih { s with failed_attempts := 0 } p hpin hmax hseq0
    · have hstep : (decide (s.failed_attempts + 1 < 3) &&
          okSeq q (s.failed_attempts + 1) ps) = true := by
        unfold okSeq at hseq
        rw [if_neg hpq] at hseq
        exact hseq
      have hlt : s.failed_attempts + 1 < 3 := by
        have := Bool.and_elim_left hstep
        exact of_decide_eq_true this
      have htl : okSeq q (s.failed_attempts + 1) ps = true := Bool.and_elim_right hstep
      obtain ⟨-, epin, -, emax, efa, -, ekeep⟩ := verify_pin_fail s q p hpin hpq
      have hnw : ¬ s.max_attempts ≤ s.failed_attempts + 1 := by omega
      show (runPins (s.verify_pin p).1 ps).slots = s.slots
      have hres := ih (s.verify_pin p).1 q (by rw [epin, hpin])
        (by rw [emax, hmax]) (by rw [efa]; exact htl)
      rw [hres, ekeep hnw]

/-- C10: a successful `verify_pin` resets `failed_attempts` to 0, so only
strictly consecutive failures count toward the wipe threshold: starting
from a device with a configured PIN, counter 0 and the stock
`max_attempts = 3`, any attempt sequence whose consecutive-failure count
never reaches 3 (`okSeq`) leaves the slots untouched, regardless of the
total number of failures it contains. -/
theorem success_resets_counter_and_only_consecutive_failures_count
    (s : NexusClawSimulator) (q : String) (pins : List String)
    (hpin : s.pin = some q) (hmax : s.max_attempts = 3)
    (hfa : s.failed_attempts = 0) (hseq : okSeq q 0 pins = true) :
    s.verify_pin q = ({ s with failed_attempts := 0 }, true)
    ∧ (runPins s pins).slots = s.slots :=
  ⟨verify_pin_success s q hpin,
    runPins_no_wipe pins s q hpin hmax (by rw [hfa]; exact hseq)⟩

theorem success_resets_counter_and_only_consecutive_failures_count_witness :
    okSeq "1234" 0 ["0000", "1111", "1234", "2222", "3333", "1234", "0000", "9999"] = true
    ∧ (runPins simWithSlot
        ["0000", "1111", "1234", "2222", "3333", "1234", "0000", "9999"]).slots =
      simWithSlot.slots :=
  ⟨by decide,
    (success_resets_counter_and_only_consecutive_failures_count simWithSlot "1234"
      ["0000", "1111", "1234", "2222", "3333", "1234", "0000", "9999"]
      (by decide) (by decide) (by decide) (by decide)).2⟩

/-- C4: on a device with a free slot, `store(name, value)` succeeds and
writes exactly `value` into the slot, and a following `retrieve(name)`
returns exactly `value`, byte for byte.  (The simulator stores the byte
string unchanged; the `NexusClaw` authentication gate over these calls is
the subject of `operations_require_authentication`.) -/
theorem store_retrieve_roundtrip (s : NexusClawSimulator) (name : String)
    (value : List Nat) (hfree : s.slots.length < s.max_slots) :
    s.store name value = .ok ({ s with slots := dictSet s.slots name value }, true)
    ∧ NexusClawSimulator.retrieve
        { s with slots := dictSet s.slots name value } name = .ok value := by
  constructor
  · unfold NexusClawSimulator.store
    rw [if_neg (by omega)]
  · unfold NexusClawSimulator.retrieve
    simp [dictGet_set_self]

theorem store_retrieve_roundtrip_witness :
    simConfigured.slots.length < simConfigured.max_slots
    ∧ NexusClawSimulator.retrieve
        { simConfigured with
            slots := dictSet simConfigured.slots "anthropic_api_key" [115, 107, 45, 97] }
        "anthropic_api_key" = .ok [115, 107, 45, 97] :=
  ⟨by decide,
    (store_retrieve_roundtrip simConfigured "anthropic_api_key" [115, 107, 45, 97]
      (by decide)).2⟩

/-- C6 counterexample: `setup_pin("1234")` succeeds on a fresh device and
the resulting state records the PIN value `"1234"` itself in its `pin`
field — not a salted hash of it, contradicting the claim that the state
holds only a salted hash and never the PIN value. -/
theorem setup_stores_plaintext_pin_counterexample :
    NexusClawSimulator.init.setup_pin "1234" = .ok (simConfigured, true)
    ∧ simConfigured.pin = some "1234" := by
  decide

/-- C6 (amended): `setup_pin` rejects any PIN shorter than 4 characters;
on success the device state records the PIN value itself in plaintext (no
salt, no hash). -/
theorem setup_rejects_short_pin_and_stores_plaintext
    (s : NexusClawSimulator) (pin : String) :
    (pin.length < 4 →
      s.setup_pin pin = .error (.valueError "PIN must be at least 4 digits"))
    ∧ (4 ≤ pin.length →
      s.setup_pin pin = .ok ({ s with pin := some pin, pin_set := true }, true)) := by
  constructor
  · intro h
    unfold NexusClawSimulator.setup_pin
    rw [if_pos h]
  · intro h
    unfold NexusClawSimulator.setup_pin
    rw [if_neg (by omega)]

theorem setup_rejects_short_pin_and_stores_plaintext_witness :
    NexusClawSimulator.init.setup_pin "123" =
      .error (.valueError "PIN must be at least 4 digits")
    ∧ NexusClawSimulator.init.setup_pin "1234" =
      .ok ({ NexusClawSimulator.init with pin := some "1234", pin_set := true }, true) :=
  ⟨(setup_rejects_short_pin_and_stores_plaintext NexusClawSimulator.init "123").1
      (by decide),
    (setup_rejects_short_pin_and_stores_plaintext NexusClawSimulator.init "1234").2
      (by decide)⟩

/-- A device whose 32 slots are all occupied. -/
def simFull : NexusClawSimulator :=
  { simConfigured with
      slots := (List.range 32).map (fun i => (toString i, [0])) }

/-- C7: once the slot count has reached `max_slots`, a further `store`
raises `ValueError("No free slots available")` before touching the slot
mapping — the call returns no new state, so nothing is evicted or
modified and the caller keeps the unchanged device. -/
theorem store_full_capacity_error (s : NexusClawSimulator) (name : String)
    (value : List Nat) (hfull : s.max_slots ≤ s.slots.length) :
    s.store name value = .error (.valueError "No free slots available") := by
  unfold NexusClawSimulator.store
  rw [if_pos hfull]

theorem store_full_capacity_error_witness :
    simFull.max_slots ≤ simFull.slots.length
    ∧ simFull.store "one_more" [1] =
      .error (.valueError "No free slots available") :=
  ⟨by decide,
    store_full_capacity_error simFull "one_more" [1] (by decide)⟩

/-- C9: while `_authenticated` is `false` — as initially, or after
`disconnect` resets it — `store`, `retrieve` and `delete` all raise
`PermissionError` before touching the device, so the slot state is
unchanged (the call returns no new state); once authentication has
succeeded the `PermissionError` branch is unreachable, whatever the
operation outcome. -/
theorem operations_require_authentication (c : NexusClaw) (name value : String) :
    (c.authenticated = false →
        c.store name value = .error (.permissionError permMsg)
      ∧ c.retrieve name = .error (.permissionError permMsg)
      ∧ c.delete name = .error (.permissionError permMsg))
    ∧ (c.authenticated = true →
        permDenied (c.store name value) = false
      ∧ permDenied (c.retrieve name) = false
      ∧ permDenied (c.delete name) = false)
    ∧ c.disconnect.authenticated = false := by
  refine ⟨?_, ?_, rfl⟩
  · intro h
    refine ⟨?_, ?_, ?_⟩
    · unfold NexusClaw.store
      rw [if_neg (by rw [h]; exact Bool.false_ne_true)]
    · unfold NexusClaw.retrieve
      rw [if_neg (by rw [h]; exact Bool.false_ne_true)]
    · unfold NexusClaw.delete
      rw [if_neg (by rw [h]; exact Bool.false_ne_true)]
  · intro h
    refine ⟨?_, ?_, ?_⟩
    · unfold NexusClaw.store NexusClawSimulator.store
      rw [if_pos (by rw [h])]
      by_cases hc : c.device.max_slots ≤ c.device.slots.length
      · rw [if_pos hc]
        rfl
      · rw [if_neg hc]
        rfl
    · unfold NexusClaw.retrieve NexusClawSimulator.retrieve
      rw [if_pos (by rw [h])]
      cases hg : dictGet c.device.slots name with
      | none => rfl
      | some v =>
        cases hd : strDecode v with
        | none => simp [hd, permDenied]
        | some str => simp [hd, permDenied]
    · unfold NexusClaw.delete
      rw [if_pos (by rw [h])]
      rfl

theorem operations_require_authentication_witness :
    NexusClaw.init.authenticated = false
    ∧ NexusClaw.init.store "k" "v" = .error (.permissionError permMsg)
    ∧ permDenied ((NexusClaw.mk simConfigured true).store "k" "v") = false :=
  ⟨rfl,
    ((operations_require_authentication NexusClaw.init "k" "v").1 rfl).1,
    ((operations_require_authentication (NexusClaw.mk simConfigured true) "k" "v").2.1
      rfl).1⟩

/-!
Lemmas and claims on the credential manager and provider.
-/

/-- Well-formedness of a reachable `AVPCredentialManager` state: every
cached workspace-to-session binding points to a live client session
bound to that same workspace.  `_get_session` establishes this and no
manager method breaks it. -/
def AVPCredentialManager.wf (m : AVPCredentialManager) : Bool :=
  m.sessions.all (fun ws_sid =>
    match dictGet m.client.sessions ws_sid.2 with
    | some s => s.workspace == ws_sid.1 && decide (m.client.now < s.expires_at)
    | none => false)

/-- The secret `name` is stored in no workspace other than `w1`. -/
def storedOnlyIn (data : List (String × List (String × AVPSecret)))
    (w1 name : String) : Bool :=
  data.all (fun ws_secrets =>
    ws_secrets.1 == w1 || (dictGet ws_secrets.2 name).isNone)

theorem storedOnlyIn_lookup (data : List (String × List (String × AVPSecret)))
    (w1 name ws : String) (h : storedOnlyIn data w1 name = true)
    (hne : ws ≠ w1) (secrets : List (String × AVPSecret))
    (hd : dictGet data ws = some secrets) :
    dictGet secrets name = none := by
  have hmem := dictGet_mem hd
  have hx := List.all_eq_true.mp h _ hmem
  simp only [Bool.or_eq_true, beq_iff_eq, Option.isNone_iff_eq_none] at hx
  rcases hx with h1 | h2
  · exact absurd h1 hne
  · exact h2

theorem wf_session (m : AVPCredentialManager) (ws sid : String)
    (hwf : m.wf = true) (h : dictGet m.sessions ws = some sid) :
    m.client.checkSession sid = .ok ws := by
  have hmem := dictGet_mem h
  have hall := List.all_eq_true.mp hwf _ hmem
  cases hs : dictGet m.client.sessions sid with
  | none =>
    rw [hs] at hall
    exact absurd hall (by simp)
  | some s =>
    rw [hs] at hall
    simp only [Bool.and_eq_true, beq_iff_eq, decide_eq_true_eq] at hall
    unfold AVPClient.checkSession
    simp [hs, hall.1, hall.2]

theorem retrieve_not_in_workspace (c : AVPClient) (sid ws name : String)
    (hsess : c.checkSession sid = .ok ws)
    (hnone : ∀ secrets, dictGet c.data ws = some secrets →
      dictGet secrets name = none) :
    c.retrieve sid name = .error .notFoundError := by
  unfold AVPClient.retrieve
  rw [hsess]
  cases hd : dictGet c.data ws with
  | none => simp [hd]
  | some secrets => simp [hd, hnone secrets hd]

/-- C2: if the secret `name` lives only in workspace `w1` and `w2` is a
different workspace, then retrieving `name` through the manager under
`w2` fails with `NotFoundError`: a secret is never visible through any
workspace other than the one it was stored in. -/
theorem workspace_isolation_retrieve_not_found (m : AVPCredentialManager)
    (w1 w2 name : String) (hwf : m.wf = true) (hne : w2 ≠ w1)
    (honly : storedOnlyIn m.client.data w1 name = true) :
    (m.get w2 name).2 = .error (.avp .notFoundError) := by
  have hnone : ∀ secrets, dictGet m.client.data w2 = some secrets →
      dictGet secrets name = none :=
    fun secrets hd => storedOnlyIn_lookup m.client.data w1 name w2 honly hne secrets hd
  unfold AVPCredentialManager.get AVPCredentialManager.get_session
  cases hs : dictGet m.sessions w2 with
  | some sid =>
    have hr := retrieve_not_in_workspace m.client sid w2 name
      (wf_session m w2 sid hwf hs) hnone
    simp [hr]
  | none =>
    have hr : ({ m.client with
        sessions := dictSet m.client.sessions
          ("session-" ++ toString m.client.next_session)
          { workspace := w2, expires_at := m.client.now + sessionTTL },
        next_session := m.client.next_session + 1 } : AVPClient).retrieve
        ("session-" ++ toString m.client.next_session) name =
        .error .notFoundError := by
      refine retrieve_not_in_workspace _ _ w2 name ?_ hnone
      unfold AVPClient.checkSession
      simp [dictGet_set_self, sessionTTL]
    simp [AVPClient.authenticate, AVPCredentialManager.log_access, hr]

/-- A vault whose only secret is `api_key` in workspace `w1`, wrapped by
a fresh manager. -/
def clientIso : AVPClient :=
  { data := [("w1", [("api_key", { value := [1, 2], version := 1 })])],
    sessions := [], next_session := 0, now := 0 }

/-- Fresh manager over `clientIso`. -/
def mIso : AVPCredentialManager :=
  { client := clientIso, sessions := [], audit_log := [] }

theorem workspace_isolation_retrieve_not_found_witness :
    mIso.wf = true
    ∧ storedOnlyIn mIso.client.data "w1" "api_key" = true
    ∧ (mIso.get "w2" "api_key").2 = .error (.avp .notFoundError) :=
  ⟨by decide, by decide,
    workspace_isolation_retrieve_not_found mIso "w1" "w2" "api_key"
      (by decide) (by decide) (by decide)⟩

/-- A vault with one secret `k` in workspace `w`, wrapped by a fresh
manager. -/
def clientAudit : AVPClient :=
  { data := [("w", [("k", { value := [107], version := 1 })])],
    sessions := [], next_session := 0, now := 0 }

/-- Fresh manager over `clientAudit`. -/
def mAudit0 : AVPCredentialManager :=
  { client := clientAudit, sessions := [], audit_log := [] }

/-- Manager after one successful `list_credentials("w")`. -/
def mAudit1 : AVPCredentialManager := (mAudit0.list_credentials "w").1

/-- Manager after additionally one failed `get("w", "missing")`. -/
def mAudit2 : AVPCredentialManager := (mAudit1.get "w" "missing").1

/-- C3 counterexample: after two vault operations — a successful
`list_credentials` and a `get` whose backend call raises `NotFoundError`
— the audit log holds only the single `session_created` entry: neither
the `list` operation nor the failed retrieval appended an entry, so
`get_audit_log` does not return N (or N plus session-creation) entries
for N operations. -/
theorem audit_missing_entries_counterexample :
    (mAudit0.list_credentials "w").2 = .ok ["k"]
    ∧ (mAudit1.get "w" "missing").2 = .error (.avp .notFoundError)
    ∧ mAudit2.get_audit_log =
      [{ workspace := "w", action := "session_created", credential := none }] := by
  decide

/-- C3 (amended): `store`, `retrieve` and `rotate` append exactly one
audit entry on success, appended at the end (call order) after the
backend call returns — not before — and append nothing when the backend
call raises; `list_credentials` never appends an operation entry; the
only other entries are the `session_created` entries appended by
`_get_session`; the manager offers no `delete`.  (A failed retrieval
logs nothing, while a retrieval that succeeds at the backend is logged
even if the subsequent byte decoding fails.) -/
theorem audit_entries_appended_in_call_order (m : AVPCredentialManager)
    (ws n v : String) :
    ((m.get_session ws).1.audit_log =
      m.audit_log ++ (match dictGet m.sessions ws with
        | some _ => []
        | none => [{ workspace := ws, action := "session_created", credential := none }]))
    ∧ ((m.set ws n v).1.audit_log =
      (m.get_session ws).1.audit_log ++ (match (m.set ws n v).2 with
        | .ok _ => [{ workspace := ws, action := "store", credential := some n }]
        | .error _ => []))
    ∧ ((m.get ws n).1.audit_log =
      (m.get_session ws).1.audit_log ++ (match (m.get ws n).2 with
        | .error (.avp _) => []
        | _ => [{ workspace := ws, action := "retrieve", credential := some n }]))
    ∧ ((m.rotate ws n v).1.audit_log =
      (m.get_session ws).1.audit_log ++ (match (m.rotate ws n v).2 with
        | .ok _ => [{ workspace := ws, action := "rotate", credential := some n }]
        | .error _ => []))
    ∧ ((m.list_credentials ws).1.audit_log = (m.get_session ws).1.audit_log) := by
  refine ⟨?_, ?_, ?_, ?_, ?_⟩
  · cases hs : dictGet m.sessions ws <;>
      simp [AVPCredentialManager.get_session, AVPCredentialManager.log_access, hs]
  · unfold AVPCredentialManager.set
    cases hc : (m.get_session ws).1.client.store (m.get_session ws).2 n (strEncode v) with
    | ok c2 => simp [hc, AVPCredentialManager.log_access]
    | error e => simp [hc]
  · unfold AVPCredentialManager.get
    cases hc : (m.get_session ws).1.client.retrieve (m.get_session ws).2 n with
    | ok secret =>
      cases hd : strDecode secret.value with
      | some s => simp [hc, hd, AVPCredentialManager.log_access]
      | none => simp [hc, hd, AVPCredentialManager.log_access]
    | error e => simp [hc]
  · unfold AVPCredentialManager.rotate
    cases hc : (m.get_session ws).1.client.rotate (m.get_session ws).2 n (strEncode v) with
    | ok c2 => simp [hc, AVPCredentialManager.log_access]
    | error e => simp [hc]
  · unfold AVPCredentialManager.list_credentials
    cases hc : (m.get_session ws).1.client.list_secrets (m.get_session ws).2 with
    | ok names => simp [hc]
    | error e => simp [hc]

/-- A provider whose session `s1` is live but whose vault lacks the
requested name. -/
def clientMissing : AVPClient :=
  { data := [("langchain", [("other", { value := [1], version := 1 })])],
    sessions := [("s1", { workspace := "langchain", expires_at := 3600 })],
    next_session := 1, now := 0 }

/-- Provider over `clientMissing`. -/
def providerMissing : AVPCredentialProvider :=
  { client := clientMissing, workspace := "langchain", session_id := "s1" }

/-- The same vault 5000 seconds later: session `s1` has expired. -/
def clientLate : AVPClient := { clientMissing with now := 5000 }

/-- Provider over `clientLate`. -/
def providerExpired : AVPCredentialProvider :=
  { client := clientLate, workspace := "langchain", session_id := "s1" }

/-- C8 counterexample: the backend distinguishes an expected miss
(`NotFoundError`) from a security failure (`SessionExpiredError`), but
`AVPCredentialProvider.get` returns the identical `KeyError`-shaped
failure for both, so the caller cannot tell the two kinds apart. -/
theorem provider_conflates_failures_counterexample :
    providerMissing.client.retrieve "s1" "api_key" = .error .notFoundError
    ∧ providerExpired.client.retrieve "s1" "api_key" = .error .sessionExpiredError
    ∧ providerMissing.get "api_key" = .error (.keyError "api_key")
    ∧ providerExpired.get "api_key" = .error (.keyError "api_key")
    ∧ providerMissing.get "api_key" = providerExpired.get "api_key" := by
  decide

/-- C8 (amended): every backend failure of a retrieval — expected miss
and security failure alike — is surfaced by `AVPCredentialProvider.get`
as the one `KeyError` failure shape naming the credential, so failures
are not distinguishable by kind through this provider. -/
theorem provider_get_all_failures_become_key_error (p : AVPCredentialProvider)
    (name : String) (e : AVPError)
    (h : p.client.retrieve p.session_id name = .error e) :
    p.get name = .error (.keyError name) := by
  unfold AVPCredentialProvider.get
  simp [h]

theorem provider_get_all_failures_become_key_error_witness :
    providerExpired.client.retrieve providerExpired.session_id "api_key" =
      .error .sessionExpiredError
    ∧ providerExpired.get "api_key" = .error (.keyError "api_key") :=
  ⟨by decide,
    provider_get_all_failures_become_key_error providerExpired "api_key"
      .sessionExpiredError (by decide)⟩

